import Mathlib

/-!
Verification development for a campus event-management backend
(`src/main.py`): a REST service over four tables (colleges, students,
events, registrations) with CRUD handlers and aggregate reports.

The handlers are embedded shallowly: the database is a record of lists of
rows, each handler is a pure function from a database state (plus request
parameters, and a `now` timestamp where the source calls
`datetime.utcnow()`) to an `Except` of an HTTP error or a result.
Optional query parameters are `Option` values; the source guards them
with Python truthiness (`if college_id:` / `if type:`), which treats
`0` and `""` like an absent parameter, and the embedding mirrors that.
-/

namespace Campus

/-- An HTTP error response: status code and detail message, as raised by
`HTTPException(status, detail)` in the source. -/
structure HTTPError where
  status : Nat
  detail : String
deriving DecidableEq, Repr

/-- Row of the `colleges` table. -/
structure College where
  id : Int
  name : String
deriving DecidableEq, Repr

/-- Row of the `students` table. -/
structure Student where
  id : Int
  name : String
  email : String
  collegeId : Int
deriving DecidableEq, Repr

/-- Row of the `events` table. -/
structure Event where
  id : Int
  name : String
  type : String
  date : Int
  collegeId : Int
  cancelled : Bool
deriving DecidableEq, Repr

/-- Row of the `registrations` table. `attendedAt` and `feedbackRating`
are nullable columns. -/
structure Registration where
  id : Int
  studentId : Int
  eventId : Int
  registeredAt : Int
  attended : Bool
  attendedAt : Option Int
  feedbackRating : Option Int
deriving DecidableEq, Repr

/-- The persistent state: the four tables. -/
structure DB where
  colleges : List College
  students : List Student
  events : List Event
  registrations : List Registration
deriving DecidableEq, Repr

/-- Python truthiness of an `Optional[int]` query parameter:
`if college_id:` is false for `None` and for `0`. -/
def intParamTruthy : Option Int → Bool
  | none => false
  | some c => c != 0

/-- Python truthiness of an `Optional[str]` query parameter:
`if type:` is false for `None` and for the empty string. -/
def strParamTruthy : Option String → Bool
  | none => false
  | some s => s != ""

/-- Next autoincrement id for the registrations table (SQLite assigns
max rowid + 1). -/
def nextRegId (db : DB) : Int :=
  (db.registrations.map (·.id)).foldr max 0 + 1

/-- `GET /events`: `list_events`. Optional filter by `college_id`
(applied only when the parameter is truthy, per `if college_id:`);
no cancellation filter. -/
def list_events (db : DB) (collegeId : Option Int) : List Event :=
  if intParamTruthy collegeId then
    db.events.filter (fun e => decide (e.collegeId = collegeId.getD 0))
  else
    db.events

/-- `PATCH /events/{event_id}`: `update_event_cancelled`. 404 if the
event is absent; otherwise sets `cancelled` on that row and returns the
updated record. -/
def update_event_cancelled (db : DB) (eventId : Int) (cancelled : Bool) :
    Except HTTPError (DB × Event) :=
  match db.events.find? (fun e => decide (e.id = eventId)) with
  | none => .error ⟨404, "Event not found"⟩
  | some e =>
    let e' : Event := { e with cancelled := cancelled }
    .ok ({ db with
            events := db.events.map
              (fun x => if x.id = eventId then { x with cancelled := cancelled } else x) },
         e')

/-- `POST /registrations`: `register_student`. Inserts a new row with
`attended=false` and null `attended_at`/`feedback_rating`; the commit
raises `IntegrityError` mapped to 409 when the `(student_id, event_id)`
unique constraint is violated. -/
def register_student (db : DB) (studentId eventId : Int) (now : Int) :
    Except HTTPError (DB × Registration) :=
  if db.registrations.any (fun r => decide (r.studentId = studentId ∧ r.eventId = eventId)) then
    .error ⟨409, "Duplicate registration"⟩
  else
    let r : Registration :=
      { id := nextRegId db, studentId := studentId, eventId := eventId,
        registeredAt := now, attended := false, attendedAt := none,
        feedbackRating := none }
    .ok ({ db with registrations := db.registrations ++ [r] }, r)

/-- `PATCH /registrations/{reg_id}`: `mark_attendance`. 404 if the
registration is absent; otherwise sets `attended`, and stamps
`attended_at := now` only when the new value is true (a false update
leaves `attended_at` as it was). -/
def mark_attendance (db : DB) (regId : Int) (attended : Bool) (now : Int) :
    Except HTTPError (DB × Registration) :=
  match db.registrations.find? (fun r => decide (r.id = regId)) with
  | none => .error ⟨404, "Registration not found"⟩
  | some r =>
    let r' : Registration :=
      { r with attended := attended,
               attendedAt := if attended then some now else r.attendedAt }
    .ok ({ db with
            registrations := db.registrations.map
              (fun x => if x.id = regId then
                { x with attended := attended,
                         attendedAt := if attended then some now else x.attendedAt }
               else x) },
         r')

/-- `PATCH /registrations/{reg_id}/feedback`: `collect_feedback`. The
rating range is checked before the database is consulted; then 404 if
the registration is absent; then 400 if it is not attended; otherwise
sets `feedback_rating`. -/
def collect_feedback (db : DB) (regId : Int) (rating : Int) :
    Except HTTPError (DB × Registration) :=
  if ¬ (1 ≤ rating ∧ rating ≤ 5) then
    .error ⟨400, "Rating must be 1-5"⟩
  else
    match db.registrations.find? (fun r => decide (r.id = regId)) with
    | none => .error ⟨404, "Registration not found"⟩
    | some r =>
      if ¬ r.attended then
        .error ⟨400, "Cannot feedback without attendance"⟩
      else
        let r' : Registration := { r with feedbackRating := some rating }
        .ok ({ db with
                registrations := db.registrations.map
                  (fun x => if x.id = regId then { x with feedbackRating := some rating } else x) },
             r')

/-- Result record of `GET /reports/event/{event_id}`. Percentages and
averages are exact rationals (the source computes them with Python
numeric division and SQL `AVG`). -/
structure EventReport where
  total_registrations : Nat
  attendance_percentage : ℚ
  average_feedback : ℚ
deriving DecidableEq, Repr

/-- `GET /reports/event/{event_id}`: `event_report`. Three aggregate
queries over `registrations` filtered by `event_id`: total count,
attended count, and `AVG(feedback_rating)` over rows with a non-null
rating (`scalar() or 0` turns an empty average into 0); the percentage
is guarded by `total > 0`. -/
def event_report (db : DB) (eventId : Int) : EventReport :=
  let total_regs := (db.registrations.filter (fun r => decide (r.eventId = eventId))).length
  let attended :=
    (db.registrations.filter (fun r => decide (r.eventId = eventId) && r.attended)).length
  let ratings : List Int :=
    (db.registrations.filter (fun r => decide (r.eventId = eventId))).filterMap (·.feedbackRating)
  let ratingSum : Int := ratings.sum
  let avg_feedback : ℚ :=
    if ratings.length = 0 then 0 else ((ratingSum : ℚ) / (ratings.length : ℚ))
  let attendance_pct : ℚ :=
    if total_regs > 0 then ((attended : ℚ) / (total_regs : ℚ)) * 100 else 0
  { total_registrations := total_regs,
    attendance_percentage := attendance_pct,
    average_feedback := avg_feedback }

/-- One row of the event-popularity / flexible-events reports. -/
structure PopRow where
  event_id : Int
  name : String
  registrations : Nat
deriving DecidableEq, Repr

/-- Number of registrations referencing a given event (the grouped
`COUNT(Registration.id)` over the outer join: 0 when none match). -/
def regCount (db : DB) (eventId : Int) : Nat :=
  (db.registrations.filter (fun r => decide (r.eventId = eventId))).length

/-- The event rows surviving the shared filter chain of
`event_popularity` and `flexible_events`: non-cancelled, then the
optional `type` and `college_id` filters, each applied only when
truthy. -/
def eventsFiltered (db : DB) (type? : Option String) (collegeId : Option Int) : List Event :=
  let base := db.events.filter (fun e => !e.cancelled)
  let base :=
    if strParamTruthy type? then base.filter (fun e => decide (e.type = type?.getD "")) else base
  if intParamTruthy collegeId then
    base.filter (fun e => decide (e.collegeId = collegeId.getD 0))
  else base

/-- `GET /reports/events`: `flexible_events`. Grouped registration
counts for the filtered events, no ordering clause. -/
def flexible_events (db : DB) (type? : Option String) (collegeId : Option Int) : List PopRow :=
  (eventsFiltered db type? collegeId).map
    (fun e => { event_id := e.id, name := e.name, registrations := regCount db e.id })

/-- Descending comparison on registration counts, the
`ORDER BY COUNT(Registration.id) DESC` of `event_popularity`. -/
def byRegsDesc (a b : PopRow) : Bool :=
  decide (b.registrations ≤ a.registrations)

/-- `GET /reports/event-popularity`: `event_popularity`. Same query as
`flexible_events` with `ORDER BY COUNT(Registration.id) DESC`. -/
def event_popularity (db : DB) (type? : Option String) (collegeId : Option Int) : List PopRow :=
  (flexible_events db type? collegeId).mergeSort byRegsDesc

/-- One row of the top-active-students report. -/
structure ActiveRow where
  student_id : Int
  name : String
  attendances : Nat
deriving DecidableEq, Repr

/-- Number of attended registrations of a given student (the grouped
`COUNT(Registration.id)` over the inner join filtered by
`attended == True`). -/
def attendCount (db : DB) (studentId : Int) : Nat :=
  (db.registrations.filter (fun r => decide (r.studentId = studentId) && r.attended)).length

/-- Descending comparison on attendance counts, the
`ORDER BY COUNT(Registration.id) DESC` of `top_active_students`. -/
def byAttendancesDesc (a b : ActiveRow) : Bool :=
  decide (b.attendances ≤ a.attendances)

/-- The students surviving the optional truthy `college_id` filter of
`top_active_students`. -/
def studentsFiltered (db : DB) (collegeId : Option Int) : List Student :=
  if intParamTruthy collegeId then
    db.students.filter (fun s => decide (s.collegeId = collegeId.getD 0))
  else db.students

/-- The grouped rows of `top_active_students` before ordering and
limiting: one row per filtered student with their attended-registration
count, a row existing only when the count is positive (the inner join
with `attended == True` registrations yields no group otherwise). -/
def activeRows (db : DB) (collegeId : Option Int) : List ActiveRow :=
  ((studentsFiltered db collegeId).map
    (fun s => { student_id := s.id, name := s.name,
                attendances := attendCount db s.id })).filter
    (fun row => decide (0 < row.attendances))

/-- `GET /reports/top-active-students`: `top_active_students`. Inner
join of students with their attended registrations, optional truthy
`college_id` filter, grouped counts, descending order, `LIMIT 3`. -/
def top_active_students (db : DB) (collegeId : Option Int) : List ActiveRow :=
  ((activeRows db collegeId).mergeSort byAttendancesDesc).take 3

/-- `GET /reports/student-participation/{student_id}`:
`student_participation`. Count of attended registrations of the
student. -/
def student_participation (db : DB) (studentId : Int) : Nat :=
  attendCount db studentId

/-- Spec-side event predicate for the report filters: the event is not
cancelled, matches the type filter when one is supplied, and matches
the college filter when one is supplied. -/
def matchesFilters (type? : Option String) (collegeId : Option Int) (e : Event) : Bool :=
  !e.cancelled &&
    (match type? with
     | none => true
     | some s => decide (e.type = s)) &&
    (match collegeId with
     | none => true
     | some k => decide (e.collegeId = k))

/-! ### Concrete states used by witnesses and counterexamples -/

/-- The empty database. -/
def dbEmpty : DB :=
  { colleges := [], students := [], events := [], registrations := [] }

/-- A database with a single attended registration (id 1). -/
def dbAttended : DB :=
  { colleges := [⟨1, "C"⟩],
    students := [⟨1, "S1", "s1@x", 1⟩],
    events := [⟨1, "E1", "Workshop", 0, 1, false⟩],
    registrations := [⟨1, 1, 1, 0, true, some 0, none⟩] }

/-- A database with one non-cancelled event belonging to college 1 and
no registrations. -/
def dbOneEvent : DB :=
  { colleges := [⟨1, "C"⟩],
    students := [],
    events := [⟨1, "E1", "Workshop", 0, 1, false⟩],
    registrations := [] }

/-! ### Theorems for the claims -/

/-- Claim C10: an out-of-range rating yields BadRequest (400) regardless
of the database state, in particular even when no registration with the
given id exists, because `collect_feedback` checks the range before any
lookup; NotFound (404) is never returned for an out-of-range rating. -/
theorem collect_feedback_range_checked_first (db : DB) (regId rating : Int)
    (h : ¬ (1 ≤ rating ∧ rating ≤ 5)) :
    collect_feedback db regId rating = .error ⟨400, "Rating must be 1-5"⟩ := by
  simp [collect_feedback, h]

/-- Witness for C10 at a concrete state with no registrations at all:
rating 9 on registration id 7 yields 400, not 404. -/
theorem collect_feedback_range_checked_first_witness :
    dbEmpty.registrations = [] ∧
    collect_feedback dbEmpty 7 9 = .error ⟨400, "Rating must be 1-5"⟩ :=
  ⟨rfl, collect_feedback_range_checked_first dbEmpty 7 9 (by decide)⟩

/-- Claim C1: `collect_feedback` fails 400 when the rating is outside
[1,5]; otherwise fails 404 when no registration with the id exists;
otherwise fails 400 when that registration is not attended; otherwise
succeeds, returning and storing the registration with `feedback_rating`
set to the rating, and leaves the other tables unchanged. -/
theorem collect_feedback_spec (db : DB) (regId rating : Int) :
    (¬ (1 ≤ rating ∧ rating ≤ 5) →
      collect_feedback db regId rating = .error ⟨400, "Rating must be 1-5"⟩) ∧
    ((1 ≤ rating ∧ rating ≤ 5) → (∀ r ∈ db.registrations, r.id ≠ regId) →
      collect_feedback db regId rating = .error ⟨404, "Registration not found"⟩) ∧
    (∀ r, (1 ≤ rating ∧ rating ≤ 5) →
      db.registrations.find? (fun x => decide (x.id = regId)) = some r →
      r.attended = false →
      collect_feedback db regId rating = .error ⟨400, "Cannot feedback without attendance"⟩) ∧
    (∀ r, (1 ≤ rating ∧ rating ≤ 5) →
      db.registrations.find? (fun x => decide (x.id = regId)) = some r →
      r.attended = true →
      ∃ db1, collect_feedback db regId rating =
          .ok (db1, { r with feedbackRating := some rating }) ∧
        { r with feedbackRating := some rating } ∈ db1.registrations ∧
        db1.events = db.events ∧ db1.students = db.students ∧
        db1.colleges = db.colleges) := by
  refine ⟨?_, ?_, ?_, ?_⟩
  · intro h
    simp [collect_feedback, h]
  · intro h hnone
    have hfind : db.registrations.find? (fun x => decide (x.id = regId)) = none := by
      rw [List.find?_eq_none]
      intro x hx
      simpa using hnone x hx
    simp [collect_feedback, h, hfind]
  · intro r h hfind hatt
    simp [collect_feedback, h, hfind, hatt]
  · intro r h hfind hatt
    have hmem : r ∈ db.registrations := List.mem_of_find?_eq_some hfind
    have hid : r.id = regId := by simpa using List.find?_some hfind
    refine ⟨{ db with registrations := db.registrations.map (fun x => if x.id = regId then { x with feedbackRating := some rating } else x) }, ?_, ?_, rfl, rfl, rfl⟩
    · simp [collect_feedback, h, hfind, hatt]
    · have himg :
          (fun x : Registration =>
            if x.id = regId then { x with feedbackRating := some rating } else x) r =
          { r with feedbackRating := some rating } := by
        simp [hid]
      exact himg ▸ List.mem_map_of_mem _ hmem

/-- Witness for C1 at a concrete state: rating 3 on the attended
registration 1 of `dbAttended` succeeds and stores the rating. -/
theorem collect_feedback_spec_witness :
    ∃ db1, collect_feedback dbAttended 1 3 =
        .ok (db1, { id := 1, studentId := 1, eventId := 1, registeredAt := 0,
                    attended := true, attendedAt := some 0,
                    feedbackRating := some 3 }) ∧
      ({ id := 1, studentId := 1, eventId := 1, registeredAt := 0,
         attended := true, attendedAt := some 0,
         feedbackRating := some 3 } : Registration) ∈ db1.registrations ∧
      db1.events = dbAttended.events ∧ db1.students = dbAttended.students ∧
      db1.colleges = dbAttended.colleges :=
  (collect_feedback_spec dbAttended 1 3).2.2.2
    ⟨1, 1, 1, 0, true, some 0, none⟩ (by decide) (by decide) rfl

/-- Claim C2: when no registration with the pair (student_id, event_id)
exists, `register_student` succeeds and appends one row with that pair;
afterwards exactly one row with the pair exists and a second request for
the same pair fails with Conflict (409), creating nothing. -/
theorem register_student_spec (db : DB) (sid eid now nowLater : Int)
    (h : ∀ r ∈ db.registrations, ¬ (r.studentId = sid ∧ r.eventId = eid)) :
    ∃ db1 r, register_student db sid eid now = .ok (db1, r) ∧
      r.studentId = sid ∧ r.eventId = eid ∧
      db1.registrations = db.registrations ++ [r] ∧
      (db1.registrations.filter
        (fun x => decide (x.studentId = sid ∧ x.eventId = eid))).length = 1 ∧
      register_student db1 sid eid nowLater = .error ⟨409, "Duplicate registration"⟩ := by
  have hany : db.registrations.any
      (fun r => decide (r.studentId = sid ∧ r.eventId = eid)) = false := by
    simp only [List.any_eq_false, decide_eq_true_eq, not_and]
    intro x hx h1 h2
    exact h x hx ⟨h1, h2⟩
  refine ⟨{ db with registrations := db.registrations ++ [⟨nextRegId db, sid, eid, now, false, none, none⟩] }, ⟨nextRegId db, sid, eid, now, false, none, none⟩, ?_, rfl, rfl, rfl, ?_, ?_⟩
  · unfold register_student
    rw [hany]
    rfl
  · have hfi : db.registrations.filter
        (fun x => decide (x.studentId = sid ∧ x.eventId = eid)) = [] := by
      rw [List.filter_eq_nil_iff]
      intro x hx
      simp only [decide_eq_true_eq]
      exact h x hx
    rw [List.filter_append, hfi]
    simp
  · have hmem : (⟨nextRegId db, sid, eid, now, false, none, none⟩ : Registration) ∈
        db.registrations ++ [⟨nextRegId db, sid, eid, now, false, none, none⟩] := by
      simp
    simp only [register_student]
    rw [if_pos]
    rw [List.any_eq_true]
    exact ⟨_, hmem, by simp⟩

/-- Witness for C2 at the empty database: registering (1, 2) succeeds
and registering it again fails with 409. -/
theorem register_student_spec_witness :
    ∃ db1 r, register_student dbEmpty 1 2 0 = .ok (db1, r) ∧
      r.studentId = 1 ∧ r.eventId = 2 ∧
      db1.registrations = dbEmpty.registrations ++ [r] ∧
      (db1.registrations.filter
        (fun x => decide (x.studentId = 1 ∧ x.eventId = 2))).length = 1 ∧
      register_student db1 1 2 5 = .error ⟨409, "Duplicate registration"⟩ :=
  register_student_spec dbEmpty 1 2 0 5 (by simp [dbEmpty])

/-- Claim C3: `mark_attendance` fails 404 when the registration is
absent; marking an existing registration attended stores and returns
`attended = true` with `attended_at` stamped to the current time, and a
subsequent `attended = false` update on the resulting state returns
`attended = false` while leaving the previously stamped `attended_at`
unchanged and non-null. -/
theorem mark_attendance_spec (db : DB) (regId now nowLater : Int) :
    ((∀ r ∈ db.registrations, r.id ≠ regId) → ∀ b,
      mark_attendance db regId b now = .error ⟨404, "Registration not found"⟩) ∧
    (∀ r, db.registrations.find? (fun x => decide (x.id = regId)) = some r →
      ∃ db1 r1, mark_attendance db regId true now = .ok (db1, r1) ∧
        r1.attended = true ∧ r1.attendedAt = some now ∧
        ∃ db2 r2, mark_attendance db1 regId false nowLater = .ok (db2, r2) ∧
          r2.attended = false ∧ r2.attendedAt = some now) := by
  constructor
  · intro hnone b
    have hfind : db.registrations.find? (fun x => decide (x.id = regId)) = none := by
      rw [List.find?_eq_none]
      intro x hx
      simpa using hnone x hx
    simp [mark_attendance, hfind]
  · intro r hfind
    have hid : r.id = regId := by simpa using List.find?_some hfind
    refine ⟨{ db with registrations := db.registrations.map (fun x => if x.id = regId then { x with attended := true, attendedAt := some now } else x) }, { r with attended := true, attendedAt := some now }, by simp [mark_attendance, hfind], rfl, rfl, ?_⟩
    have hcomp : ((fun x : Registration => decide (x.id = regId)) ∘
        (fun x : Registration => if x.id = regId then
          { x with attended := true, attendedAt := some now } else x)) =
        (fun x : Registration => decide (x.id = regId)) := by
      funext x
      by_cases hx : x.id = regId <;> simp [hx]
    have hfind1 : (db.registrations.map (fun x : Registration => if x.id = regId then
        { x with attended := true, attendedAt := some now } else x)).find?
        (fun x => decide (x.id = regId)) =
        some { r with attended := true, attendedAt := some now } := by
      rw [List.find?_map, hcomp, hfind]
      simp [hid]
    refine ⟨{ db with registrations := (db.registrations.map (fun x => if x.id = regId then { x with attended := true, attendedAt := some now } else x)).map (fun x => if x.id = regId then { x with attended := false, attendedAt := x.attendedAt } else x) }, { r with attended := false, attendedAt := some now }, ?_, rfl, rfl⟩
    simp [mark_attendance, hfind1]

/-- Witness for C3 at a concrete state: marking registration 1 of
`dbAttended` attended at time 4, then unattended at time 9, leaves
`attended_at = 4`. -/
theorem mark_attendance_spec_witness :
    ∃ db1 r1, mark_attendance dbAttended 1 true 4 = .ok (db1, r1) ∧
      r1.attended = true ∧ r1.attendedAt = some 4 ∧
      ∃ db2 r2, mark_attendance db1 1 false 9 = .ok (db2, r2) ∧
        r2.attended = false ∧ r2.attendedAt = some 4 :=
  (mark_attendance_spec dbAttended 1 4 9).2 ⟨1, 1, 1, 0, true, some 0, none⟩ rfl

/-- Claim C7: `update_event_cancelled` fails 404 when the event is
absent (the state is untouched: no success value is produced); on an
existing event it returns the record with `cancelled` set to the given
boolean, stores it, and leaves registrations, students, colleges and
every event row with a different id unchanged, preserving the number of
event rows. -/
theorem update_event_cancelled_spec (db : DB) (eventId : Int) (b : Bool) :
    ((∀ e ∈ db.events, e.id ≠ eventId) →
      update_event_cancelled db eventId b = .error ⟨404, "Event not found"⟩) ∧
    (∀ e, db.events.find? (fun x => decide (x.id = eventId)) = some e →
      ∃ db1, update_event_cancelled db eventId b = .ok (db1, { e with cancelled := b }) ∧
        db1.registrations = db.registrations ∧
        db1.students = db.students ∧
        db1.colleges = db.colleges ∧
        db1.events.length = db.events.length ∧
        { e with cancelled := b } ∈ db1.events ∧
        (∀ i (hi : i < db.events.length) (hi1 : i < db1.events.length),
          (db.events.get ⟨i, hi⟩).id ≠ eventId →
            db1.events.get ⟨i, hi1⟩ = db.events.get ⟨i, hi⟩)) := by
  constructor
  · intro hnone
    have hfind : db.events.find? (fun x => decide (x.id = eventId)) = none := by
      rw [List.find?_eq_none]
      intro x hx
      simpa using hnone x hx
    simp [update_event_cancelled, hfind]
  · intro e hfind
    have hmem : e ∈ db.events := List.mem_of_find?_eq_some hfind
    have hid : e.id = eventId := by simpa using List.find?_some hfind
    refine ⟨{ db with events := db.events.map (fun x => if x.id = eventId then { x with cancelled := b } else x) }, ?_, rfl, rfl, rfl, by simp, ?_, ?_⟩
    · simp [update_event_cancelled, hfind]
    · have himg :
          (fun x : Event => if x.id = eventId then { x with cancelled := b } else x) e =
          { e with cancelled := b } := by
        simp [hid]
      exact himg ▸ List.mem_map_of_mem _ hmem
    · intro i hi hi1 hne
      simp only [List.get_eq_getElem] at hne ⊢
      simp only [List.getElem_map]
      rw [if_neg hne]

/-- Witness for C7 at a concrete state: cancelling event 1 of
`dbOneEvent` succeeds and leaves the other tables unchanged. -/
theorem update_event_cancelled_spec_witness :
    ∃ db1, update_event_cancelled dbOneEvent 1 true =
        .ok (db1, { id := 1, name := "E1", type := "Workshop", date := 0,
                    collegeId := 1, cancelled := true }) ∧
      db1.registrations = dbOneEvent.registrations ∧
      db1.students = dbOneEvent.students ∧
      db1.colleges = dbOneEvent.colleges ∧
      db1.events.length = dbOneEvent.events.length ∧
      ({ id := 1, name := "E1", type := "Workshop", date := 0,
         collegeId := 1, cancelled := true } : Event) ∈ db1.events ∧
      (∀ i (hi : i < dbOneEvent.events.length) (hi1 : i < db1.events.length),
        (dbOneEvent.events.get ⟨i, hi⟩).id ≠ 1 →
          db1.events.get ⟨i, hi1⟩ = dbOneEvent.events.get ⟨i, hi⟩) :=
  (update_event_cancelled_spec dbOneEvent 1 true).2
    ⟨1, "E1", "Workshop", 0, 1, false⟩ rfl

/-- Claim C4: the event report's `total_registrations` is the number of
registrations of the event; `attendance_percentage` is
attended/total*100 when total is positive and 0 when total is 0;
`average_feedback` is the mean of the non-null feedback ratings of
those registrations and 0 when there are none; in particular for an
event id with no registrations (including a nonexistent event) the
report is total=0, percentage=0, average=0 and no error is raised. -/
theorem event_report_spec (db : DB) (eventId : Int) :
    (event_report db eventId).total_registrations =
      (db.registrations.filter (fun r => decide (r.eventId = eventId))).length ∧
    (0 < (db.registrations.filter (fun r => decide (r.eventId = eventId))).length →
      (event_report db eventId).attendance_percentage =
        (((db.registrations.filter
            (fun r => decide (r.eventId = eventId) && r.attended)).length : ℚ) /
          ((db.registrations.filter (fun r => decide (r.eventId = eventId))).length : ℚ)) *
          100) ∧
    ((db.registrations.filter (fun r => decide (r.eventId = eventId))).length = 0 →
      (event_report db eventId).attendance_percentage = 0) ∧
    (∀ ratings : List Int, ratings = (db.registrations.filter
        (fun r => decide (r.eventId = eventId))).filterMap (·.feedbackRating) →
      (ratings ≠ [] →
        (event_report db eventId).average_feedback =
          ((ratings.sum : ℚ) / (ratings.length : ℚ))) ∧
      (ratings = [] → (event_report db eventId).average_feedback = 0)) ∧
    ((∀ r ∈ db.registrations, r.eventId ≠ eventId) →
      event_report db eventId =
        { total_registrations := 0, attendance_percentage := 0, average_feedback := 0 }) := by
  refine ⟨rfl, ?_, ?_, ?_, ?_⟩
  · intro h
    simp only [event_report]
    rw [if_pos h]
  · intro h
    simp only [event_report]
    rw [if_neg (by omega)]
  · intro ratings hr
    subst hr
    constructor
    · intro hne
      simp only [event_report]
      rw [if_neg (by simpa [List.length_eq_zero] using hne)]
    · intro hnil
      simp only [event_report]
      rw [if_pos (by simp [hnil])]
  · intro h
    have hfil : db.registrations.filter (fun r => decide (r.eventId = eventId)) = [] := by
      rw [List.filter_eq_nil_iff]
      intro x hx
      simpa using h x hx
    have hfil2 : db.registrations.filter
        (fun r => decide (r.eventId = eventId) && r.attended) = [] := by
      rw [List.filter_eq_nil_iff]
      intro x hx
      simp [h x hx]
    simp [event_report, hfil, hfil2]

/-- Witness for C4 at a concrete state: the report for event id 5 of
the empty database is all zeros. -/
theorem event_report_spec_witness :
    event_report dbEmpty 5 =
      { total_registrations := 0, attendance_percentage := 0, average_feedback := 0 } :=
  (event_report_spec dbEmpty 5).2.2.2.2 (by simp [dbEmpty])

/-- Claim C8: for every state and filters, the event-popularity report
is a permutation of the flexible-events report (same rows with the same
multiplicities, hence the same set), the two differing only in
ordering. -/
theorem event_popularity_perm_flexible_events (db : DB)
    (type? : Option String) (collegeId : Option Int) :
    (event_popularity db type? collegeId).Perm (flexible_events db type? collegeId) ∧
    (∀ row, row ∈ event_popularity db type? collegeId ↔
      row ∈ flexible_events db type? collegeId) :=
  ⟨List.mergeSort_perm _ _, fun _ => List.mem_mergeSort⟩

/-- Counterexample to C9 as stated: with the filter `college_id = 0`
supplied, `list_events` ignores the filter (Python falsiness of 0 in
`if college_id:`), returning an event whose `college_id` is 1 even
though no event has `college_id = 0`. -/
theorem list_events_counterexample :
    list_events dbOneEvent (some 0) =
      [{ id := 1, name := "E1", type := "Workshop", date := 0,
         collegeId := 1, cancelled := false }] ∧
    dbOneEvent.events.filter (fun e => decide (e.collegeId = 0)) = [] := by
  constructor <;> rfl

/-- Claim C9 (amended): with no `college_id`, or with `college_id = 0`
(which the handler treats as absent), `list_events` returns all events;
with a nonzero `college_id` it returns exactly the events with that
college id; cancelled events are included in both cases. -/
theorem list_events_spec (db : DB) (c : Int) (hc : c ≠ 0) :
    list_events db none = db.events ∧
    list_events db (some 0) = db.events ∧
    list_events db (some c) = db.events.filter (fun e => decide (e.collegeId = c)) ∧
    (∀ e ∈ db.events, e.cancelled = true → e ∈ list_events db none) ∧
    (∀ e ∈ db.events, e.cancelled = true → e.collegeId = c →
      e ∈ list_events db (some c)) := by
  refine ⟨rfl, rfl, ?_, ?_, ?_⟩
  · simp [list_events, intParamTruthy, hc]
  · intro e he _
    exact he
  · intro e he _ hcol
    simp only [list_events, intParamTruthy]
    rw [if_pos (by simp [hc])]
    rw [List.mem_filter]
    exact ⟨he, by simp [hcol]⟩

/-- Witness for C9: the nonzero filter 2 on `dbOneEvent` (whose only
event has college id 1) selects no event, while no filter and the
zero filter return the full table. -/
theorem list_events_spec_witness :
    list_events dbOneEvent none = dbOneEvent.events ∧
    list_events dbOneEvent (some 0) = dbOneEvent.events ∧
    list_events dbOneEvent (some 2) =
      dbOneEvent.events.filter (fun e => decide (e.collegeId = 2)) ∧
    (∀ e ∈ dbOneEvent.events, e.cancelled = true → e ∈ list_events dbOneEvent none) ∧
    (∀ e ∈ dbOneEvent.events, e.cancelled = true → e.collegeId = 2 →
      e ∈ list_events dbOneEvent (some 2)) :=
  list_events_spec dbOneEvent 2 (by decide)

/-- `matchesFilters` unfolded into its three propositional clauses. -/
theorem matchesFilters_iff (type? : Option String) (collegeId : Option Int) (e : Event) :
    matchesFilters type? collegeId e = true ↔
      e.cancelled = false ∧ (∀ s, type? = some s → e.type = s) ∧
      (∀ k, collegeId = some k → e.collegeId = k) := by
  cases type? <;> cases collegeId <;> simp [matchesFilters, and_assoc]

/-- Under non-falsy filters, the filter chain of the popularity query
coincides with the spec-side predicate. -/
theorem eventsFiltered_eq_filter (db : DB) (type? : Option String) (collegeId : Option Int)
    (ht : type? ≠ some "") (hc : collegeId ≠ some 0) :
    eventsFiltered db type? collegeId = db.events.filter (matchesFilters type? collegeId) := by
  have hcongr : ∀ f g : Event → Bool, (∀ e, f e = g e) →
      db.events.filter f = db.events.filter g := by
    intro f g h
    apply List.filter_congr
    intro e _
    rw [h e]
  cases type? with
  | none =>
    cases collegeId with
    | none =>
      show db.events.filter (fun e => !e.cancelled) = _
      refine hcongr _ _ (fun e => ?_)
      rw [Bool.eq_iff_iff]
      simp [matchesFilters]
    | some k =>
      have hk : k ≠ 0 := fun h => hc (by rw [h])
      simp [eventsFiltered, strParamTruthy, intParamTruthy, hk, List.filter_filter]
      refine hcongr _ _ (fun e => ?_)
      rw [Bool.eq_iff_iff]
      simp [matchesFilters]
      tauto
  | some s =>
    have hs : s ≠ "" := fun h => ht (by rw [h])
    cases collegeId with
    | none =>
      simp [eventsFiltered, strParamTruthy, intParamTruthy, hs, List.filter_filter]
      refine hcongr _ _ (fun e => ?_)
      rw [Bool.eq_iff_iff]
      simp [matchesFilters]
      tauto
    | some k =>
      have hk : k ≠ 0 := fun h => hc (by rw [h])
      simp [eventsFiltered, strParamTruthy, intParamTruthy, hs, hk, List.filter_filter]
      refine hcongr _ _ (fun e => ?_)
      rw [Bool.eq_iff_iff]
      simp [matchesFilters]
      tauto

/-- `byRegsDesc` is transitive. -/
theorem byRegsDesc_trans : ∀ a b c : PopRow, byRegsDesc a b → byRegsDesc b c → byRegsDesc a c := by
  intro a b c h1 h2
  simp only [byRegsDesc, decide_eq_true_eq] at h1 h2 ⊢
  omega

/-- `byRegsDesc` is total. -/
theorem byRegsDesc_total : ∀ a b : PopRow, byRegsDesc a b || byRegsDesc b a := by
  intro a b
  simp only [byRegsDesc, Bool.or_eq_true, decide_eq_true_eq]
  omega

/-- `byAttendancesDesc` is transitive. -/
theorem byAttendancesDesc_trans :
    ∀ a b c : ActiveRow, byAttendancesDesc a b → byAttendancesDesc b c → byAttendancesDesc a c := by
  intro a b c h1 h2
  simp only [byAttendancesDesc, decide_eq_true_eq] at h1 h2 ⊢
  omega

/-- `byAttendancesDesc` is total. -/
theorem byAttendancesDesc_total :
    ∀ a b : ActiveRow, byAttendancesDesc a b || byAttendancesDesc b a := by
  intro a b
  simp only [byAttendancesDesc, Bool.or_eq_true, decide_eq_true_eq]
  omega

/-- Counterexample to C6 as stated: with the filter `college_id = 0`
supplied, `event_popularity` ignores the filter (Python falsiness of 0
in `if college_id:`), returning a row for an event whose `college_id`
is 1 even though no event has `college_id = 0`. -/
theorem event_popularity_counterexample :
    event_popularity dbOneEvent none (some 0) =
      [{ event_id := 1, name := "E1", registrations := 0 }] ∧
    dbOneEvent.events.filter (fun e => decide (e.collegeId = 0)) = [] := by
  constructor
  · have h1 : event_popularity dbOneEvent none (some 0) =
        (([{ event_id := 1, name := "E1", registrations := 0 }] : List PopRow)).mergeSort
          byRegsDesc := rfl
    rw [h1, List.mergeSort_singleton]
  · rfl

/-- Claim C6 (amended): whenever the supplied type filter is nonempty
and the supplied college filter is nonzero (the handler treats `""` and
`0` as absent), the event-popularity report consists of exactly the
non-cancelled events matching the filters, each paired with its
registration count, sorted in descending order of registration count;
cancelled events never appear. -/
theorem event_popularity_spec (db : DB) (type? : Option String) (collegeId : Option Int)
    (ht : type? ≠ some "") (hc : collegeId ≠ some 0) :
    (event_popularity db type? collegeId).Perm
      ((db.events.filter (matchesFilters type? collegeId)).map
        (fun e => { event_id := e.id, name := e.name, registrations := regCount db e.id })) ∧
    List.Pairwise (fun a b : PopRow => b.registrations ≤ a.registrations)
      (event_popularity db type? collegeId) ∧
    (∀ row, row ∈ event_popularity db type? collegeId ↔
      ∃ e, e ∈ db.events ∧ e.cancelled = false ∧
        (∀ s, type? = some s → e.type = s) ∧
        (∀ k, collegeId = some k → e.collegeId = k) ∧
        row = { event_id := e.id, name := e.name, registrations := regCount db e.id }) := by
  have hfe : flexible_events db type? collegeId =
      (db.events.filter (matchesFilters type? collegeId)).map
        (fun e => { event_id := e.id, name := e.name, registrations := regCount db e.id }) := by
    simp only [flexible_events]
    rw [eventsFiltered_eq_filter db type? collegeId ht hc]
  refine ⟨?_, ?_, ?_⟩
  · have h1 : (event_popularity db type? collegeId).Perm (flexible_events db type? collegeId) :=
      List.mergeSort_perm _ _
    rw [hfe] at h1
    exact h1
  · have h2 : (event_popularity db type? collegeId).Pairwise (byRegsDesc · ·) :=
      List.sorted_mergeSort byRegsDesc_trans byRegsDesc_total
        (flexible_events db type? collegeId)
    exact h2.imp (fun h => by simpa [byRegsDesc] using h)
  · intro row
    have hm : row ∈ event_popularity db type? collegeId ↔
        row ∈ flexible_events db type? collegeId := List.mem_mergeSort
    rw [hm, hfe, List.mem_map]
    constructor
    · rintro ⟨e, he, rfl⟩
      rw [List.mem_filter] at he
      obtain ⟨he1, he2⟩ := he
      obtain ⟨hc1, hc2, hc3⟩ := (matchesFilters_iff _ _ _).1 he2
      exact ⟨e, he1, hc1, hc2, hc3, rfl⟩
    · rintro ⟨e, he, hc1, hc2, hc3, rfl⟩
      exact ⟨e, List.mem_filter.2 ⟨he, (matchesFilters_iff _ _ _).2 ⟨hc1, hc2, hc3⟩⟩, rfl⟩

/-- Witness for C6 at a concrete state: the college-1 filter on
`dbOneEvent` returns its single non-cancelled event with 0
registrations, satisfying all three clauses. -/
theorem event_popularity_spec_witness :
    (event_popularity dbOneEvent none (some 1)).Perm
      ((dbOneEvent.events.filter (matchesFilters none (some 1))).map
        (fun e => { event_id := e.id, name := e.name,
                    registrations := regCount dbOneEvent e.id })) ∧
    List.Pairwise (fun a b : PopRow => b.registrations ≤ a.registrations)
      (event_popularity dbOneEvent none (some 1)) ∧
    (∀ row, row ∈ event_popularity dbOneEvent none (some 1) ↔
      ∃ e, e ∈ dbOneEvent.events ∧ e.cancelled = false ∧
        (∀ s, (none : Option String) = some s → e.type = s) ∧
        (∀ k, (some 1 : Option Int) = some k → e.collegeId = k) ∧
        row = { event_id := e.id, name := e.name,
                registrations := regCount dbOneEvent e.id }) :=
  event_popularity_spec dbOneEvent none (some 1) (by simp) (by simp)

/-- Counterexample to C5 as stated: with the filter `college_id = 0`
supplied, `top_active_students` ignores the filter (Python falsiness of
0 in `if college_id:`), returning a student whose `college_id` is 1
even though no student has `college_id = 0`. -/
theorem top_active_students_counterexample :
    top_active_students dbAttended (some 0) =
      [{ student_id := 1, name := "S1", attendances := 1 }] ∧
    dbAttended.students.filter (fun s => decide (s.collegeId = 0)) = [] := by
  constructor
  · have h1 : top_active_students dbAttended (some 0) =
        (([{ student_id := 1, name := "S1", attendances := 1 }] :
          List ActiveRow).mergeSort byAttendancesDesc).take 3 := rfl
    rw [h1, List.mergeSort_singleton]
    rfl
  · rfl

/-- Claim C5 (amended): whenever the supplied college filter is nonzero
(the handler treats `0` as absent), the top-active-students report has
at most 3 rows, is sorted in descending order of attendance count,
and each row is a student matching the college filter with their
positive count of attended registrations; a student with zero attended
registrations never yields a row. -/
theorem top_active_students_spec (db : DB) (collegeId : Option Int)
    (hc : collegeId ≠ some 0) :
    (top_active_students db collegeId).length ≤ 3 ∧
    List.Pairwise (fun a b : ActiveRow => b.attendances ≤ a.attendances)
      (top_active_students db collegeId) ∧
    (∀ row ∈ top_active_students db collegeId,
      0 < row.attendances ∧
      ∃ s, s ∈ db.students ∧ (∀ k, collegeId = some k → s.collegeId = k) ∧
        row = { student_id := s.id, name := s.name, attendances := attendCount db s.id }) := by
  have hstud : ∀ s : Student, s ∈ studentsFiltered db collegeId →
      s ∈ db.students ∧ (∀ k, collegeId = some k → s.collegeId = k) := by
    intro s hs
    cases collegeId with
    | none =>
      simp only [studentsFiltered, intParamTruthy] at hs
      rw [if_neg Bool.false_ne_true] at hs
      exact ⟨hs, by simp⟩
    | some k =>
      have hk : k ≠ 0 := fun h => hc (by rw [h])
      simp [studentsFiltered, intParamTruthy, hk] at hs
      refine ⟨hs.1, fun k2 hk2 => ?_⟩
      injection hk2 with hkk
      subst hkk
      exact hs.2
  refine ⟨?_, ?_, ?_⟩
  · exact List.length_take_le _ _
  · have h2 : ((activeRows db collegeId).mergeSort byAttendancesDesc).Pairwise
        (byAttendancesDesc · ·) :=
      List.sorted_mergeSort byAttendancesDesc_trans byAttendancesDesc_total _
    have h3 := List.Pairwise.sublist (List.take_sublist 3 _) h2
    exact h3.imp (fun h => by simpa [byAttendancesDesc] using h)
  · intro row hrow
    have hrow1 : row ∈ (activeRows db collegeId).mergeSort byAttendancesDesc :=
      List.mem_of_mem_take hrow
    rw [List.mem_mergeSort] at hrow1
    simp only [activeRows, List.mem_filter, List.mem_map] at hrow1
    obtain ⟨⟨s, hs, rfl⟩, hpos⟩ := hrow1
    obtain ⟨hs1, hs2⟩ := hstud s hs
    exact ⟨by simpa using hpos, s, hs1, hs2, rfl⟩

/-- Witness for C5 at a concrete state: the college-1 filter on
`dbAttended` yields the single student S1 with 1 attendance,
satisfying the bound, the ordering, and the per-row clause. -/
theorem top_active_students_spec_witness :
    (top_active_students dbAttended (some 1)).length ≤ 3 ∧
    List.Pairwise (fun a b : ActiveRow => b.attendances ≤ a.attendances)
      (top_active_students dbAttended (some 1)) ∧
    (∀ row ∈ top_active_students dbAttended (some 1),
      0 < row.attendances ∧
      ∃ s, s ∈ dbAttended.students ∧
        (∀ k, (some 1 : Option Int) = some k → s.collegeId = k) ∧
        row = { student_id := s.id, name := s.name,
                attendances := attendCount dbAttended s.id }) :=
  top_active_students_spec dbAttended (some 1) (by simp)

end Campus
